import Mathlib

/-!
Formal model of the Security Marketplace smart contracts: the escrow
ledger (src/escrow/escrow_with_tests/lib.rs) and the arbitration voting
coordinator (src/voting/voting_with_tests/lib.rs), embedded shallowly.

Conventions of the embedding:
* account ids, balances (u128) and timestamps (u64) are modelled as Nat;
* an ink storage Mapping is a function Nat to Option;
* the caller identity and the block timestamp are explicit arguments;
* every entry point returns Option (Except Error Unit, state, events):
  none models a Rust panic (a failed unwrap, a failed assertion, or an
  integer division by zero), and some (r, s, evs) is a normal return with
  result r, post state s and the emitted events evs;
* the cross-contract token transfers were already replaced in the source
  by an explicit boolean success parameter, which the model keeps;
* the u8 roster-size cast in the voting contract is modelled as mod 256.
-/

def mapInsert {α : Type} (m : Nat → Option α) (k : Nat) (v : α) : Nat → Option α :=
  fun i => if i = k then some v else m i

lemma div_add_div_le (a b c : Nat) : a / c + b / c ≤ (a + b) / c := by
  rcases Nat.eq_zero_or_pos c with hc | hc
  · subst hc; simp
  · rw [Nat.le_div_iff_mul_le hc, Nat.add_mul]
    exact Nat.add_le_add (Nat.div_mul_le_self a c) (Nat.div_mul_le_self b c)

namespace Escrow

inductive AuditStatus
  | AuditCreated
  | AuditAssigned
  | AuditSubmitted
  | AuditAwaitingValidation
  | AuditCompleted
  | AuditExpired
  deriving DecidableEq

structure PaymentInfo where
  patron : Nat
  auditor : Nat
  value : Nat
  arbiterprovider : Nat
  deadline : Nat
  starttime : Nat
  currentstatus : AuditStatus
  deriving DecidableEq

inductive Error
  | UnAuthorisedCall
  | InsufficientBalance
  | InvalidArgument
  | SubmissionFailed
  | TransferFromContractFailed
  | ArbitersExtendDeadlineConditionsNotMet
  | WrongState
  | DeadlinePassed
  deriving DecidableEq

structure IncreaseRequest where
  haircut_percentage : Nat
  new_deadline : Nat
  deriving DecidableEq

inductive Event
  | AuditIdAssigned (id : Option Nat) (payment_info : Option PaymentInfo)
  | AuditCreated (id : Nat) (payment_info : Option PaymentInfo) (salt : Nat)
  | AuditInfoUpdated (id : Option Nat) (payment_info : Option PaymentInfo)
      (updated_by : Option Nat)
  | DeadlineExtendRequest (id : Nat) (newtime : Nat) (haircut : Nat)
  | AuditSubmitted (id : Nat) (ipfs_hash : String)
  | AuditRequestsArbitration (id : Nat)
  | TokenIncoming (id : Nat)
  | TokenOutgoing (id : Nat) (receiver : Nat) (amount : Nat)
  | AuditIdRetrieved (id : Nat)
  deriving DecidableEq

structure State where
  current_audit_id : Nat
  stablecoin_address : Nat
  audit_id_to_payment_info : Nat → Option PaymentInfo
  audit_id_to_time_increase_request : Nat → Option IncreaseRequest
  audit_id_to_ipfs_hash : Nat → Option String

abbrev CallResult := Option (Except Error Unit × State × List Event)

def get_paymentinfo (self : State) (id : Nat) : Option PaymentInfo :=
  self.audit_id_to_payment_info id

def query_timeincreaserequest (self : State) (id : Nat) : Option IncreaseRequest :=
  self.audit_id_to_time_increase_request id

def create_new_payment (self : State) (caller now : Nat) (_value : Nat)
    (_arbiter_provider : Nat) (_deadline : Nat) (_salt : Nat)
    (success : Bool) : CallResult :=
  let x : PaymentInfo :=
    { value := _value
      starttime := now
      auditor := caller
      arbiterprovider := _arbiter_provider
      patron := caller
      deadline := _deadline
      currentstatus := AuditStatus.AuditCreated }
  if _value = 0 then
    none
  else if success then
    some (Except.ok (),
      { self with
          audit_id_to_payment_info :=
            mapInsert self.audit_id_to_payment_info self.current_audit_id x,
          current_audit_id := self.current_audit_id + 1 },
      [Event.TokenIncoming self.current_audit_id,
       Event.AuditCreated self.current_audit_id (some x) _salt])
  else
    some (Except.error Error.InsufficientBalance, self, [])

def assign_audit (self : State) (caller now : Nat) (_id : Nat) (_auditor : Nat)
    (_new_value : Nat) (_new_deadline : Nat) (success : Bool) : CallResult :=
  match self.audit_id_to_payment_info _id with
  | none => none
  | some pi =>
    if pi.patron = caller ∧ pi.currentstatus = AuditStatus.AuditCreated then
      if pi.value = _new_value ∧ pi.deadline = _new_deadline then
        let pi2 := { pi with
          auditor := _auditor, starttime := now,
          deadline := pi.deadline + now,
          currentstatus := AuditStatus.AuditAssigned }
        some (Except.ok (),
          { self with audit_id_to_payment_info :=
              mapInsert self.audit_id_to_payment_info _id pi2 },
          [Event.AuditIdAssigned (some _id) (some pi2)])
      else if pi.value = _new_value then
        let pi2 := { pi with
          auditor := _auditor, starttime := now,
          deadline := _new_deadline + now,
          currentstatus := AuditStatus.AuditAssigned }
        some (Except.ok (),
          { self with audit_id_to_payment_info :=
              mapInsert self.audit_id_to_payment_info _id pi2 },
          [Event.AuditIdAssigned (some _id) (some pi2)])
      else if pi.value < _new_value then
        if success then
          let pi2 := { pi with
            auditor := _auditor, starttime := now,
            value := _new_value, deadline := _new_deadline + now,
            currentstatus := AuditStatus.AuditAssigned }
          some (Except.ok (),
            { self with audit_id_to_payment_info :=
                mapInsert self.audit_id_to_payment_info _id pi2 },
            [Event.AuditIdAssigned (some _id) (some pi2)])
        else
          some (Except.error Error.InsufficientBalance, self, [])
      else
        if success then
          let pi2 := { pi with
            auditor := _auditor, starttime := now,
            value := _new_value, deadline := _new_deadline + now,
            currentstatus := AuditStatus.AuditAssigned }
          some (Except.ok (),
            { self with audit_id_to_payment_info :=
                mapInsert self.audit_id_to_payment_info _id pi2 },
            [Event.AuditIdAssigned (some _id) (some pi2)])
        else
          some (Except.error Error.TransferFromContractFailed, self, [])
    else
      some (Except.error Error.UnAuthorisedCall, self, [])

def request_additional_time (self : State) (caller : Nat) (_id : Nat)
    (_time : Nat) (_haircut_percentage : Nat) : CallResult :=
  match get_paymentinfo self _id with
  | none => none
  | some pi =>
    if pi.auditor = caller then
      let x : IncreaseRequest :=
        { haircut_percentage := _haircut_percentage, new_deadline := _time }
      some (Except.ok (),
        { self with audit_id_to_time_increase_request :=
            mapInsert self.audit_id_to_time_increase_request _id x },
        [Event.DeadlineExtendRequest _id _time _haircut_percentage])
    else
      some (Except.error Error.UnAuthorisedCall, self, [])

def approve_additional_time (self : State) (caller : Nat) (_id : Nat)
    (success : Bool) : CallResult :=
  match get_paymentinfo self _id with
  | none => none
  | some pi =>
    if pi.patron = caller then
      match query_timeincreaserequest self _id with
      | none => none
      | some req =>
        if req.haircut_percentage < 100 then
          let value0 := pi.value * req.haircut_percentage / 100
          if success then
            let pi2 := { pi with
              value := pi.value * (100 - req.haircut_percentage) / 100,
              deadline := req.new_deadline }
            some (Except.ok (),
              { self with audit_id_to_payment_info :=
                  mapInsert self.audit_id_to_payment_info _id pi2 },
              [Event.TokenOutgoing _id pi.patron value0,
               Event.AuditInfoUpdated (some _id) (some pi2) (some pi2.patron)])
          else
            some (Except.error Error.TransferFromContractFailed, self, [])
        else
          some (Except.error Error.InvalidArgument, self, [])
    else
      some (Except.error Error.UnAuthorisedCall, self, [])

def mark_submitted (self : State) (caller now : Nat) (_id : Nat)
    (_ipfs_hash : String) : CallResult :=
  match self.audit_id_to_payment_info _id with
  | none => none
  | some pi =>
    if pi.auditor = caller then
      if pi.currentstatus = AuditStatus.AuditAssigned then
        if now < pi.deadline then
          let pi2 := { pi with currentstatus := AuditStatus.AuditSubmitted }
          some (Except.ok (),
            { self with
                audit_id_to_ipfs_hash :=
                  mapInsert self.audit_id_to_ipfs_hash _id _ipfs_hash,
                audit_id_to_payment_info :=
                  mapInsert self.audit_id_to_payment_info _id pi2 },
            [Event.AuditSubmitted _id _ipfs_hash])
        else
          some (Except.error Error.DeadlinePassed, self, [])
      else
        some (Except.error Error.WrongState, self, [])
    else
      some (Except.error Error.UnAuthorisedCall, self, [])

def assess_audit (self : State) (caller : Nat) (_id : Nat) (answer : Bool)
    (success : Bool) : CallResult :=
  match self.audit_id_to_payment_info _id with
  | none => none
  | some pi =>
    if caller = pi.patron ∧ pi.currentstatus = AuditStatus.AuditSubmitted then
      if answer then
        if success then
          let pi2 := { pi with currentstatus := AuditStatus.AuditCompleted }
          some (Except.ok (),
            { self with audit_id_to_payment_info :=
                mapInsert self.audit_id_to_payment_info _id pi2 },
            [Event.TokenOutgoing _id pi.auditor (pi.value * 98 / 100),
             Event.TokenOutgoing _id pi.arbiterprovider (pi.value * 2 / 100)])
        else
          some (Except.error Error.TransferFromContractFailed, self, [])
      else
        let pi2 := { pi with currentstatus := AuditStatus.AuditAwaitingValidation }
        some (Except.ok (),
          { self with audit_id_to_payment_info :=
              mapInsert self.audit_id_to_payment_info _id pi2 },
          [Event.AuditRequestsArbitration _id])
    else if caller = pi.arbiterprovider ∧
        pi.currentstatus = AuditStatus.AuditAwaitingValidation then
      if answer then
        if success then
          let pi2 := { pi with currentstatus := AuditStatus.AuditCompleted }
          some (Except.ok (),
            { self with audit_id_to_payment_info :=
                mapInsert self.audit_id_to_payment_info _id pi2 },
            [Event.TokenOutgoing _id pi.auditor (pi.value * 95 / 100),
             Event.TokenOutgoing _id pi.arbiterprovider (pi.value * 5 / 100)])
        else
          some (Except.error Error.TransferFromContractFailed, self, [])
      else
        if success then
          let pi2 := { pi with currentstatus := AuditStatus.AuditExpired }
          some (Except.ok (),
            { self with audit_id_to_payment_info :=
                mapInsert self.audit_id_to_payment_info _id pi2 },
            [Event.TokenOutgoing _id pi.patron (pi.value * 95 / 100),
             Event.TokenOutgoing _id pi.arbiterprovider (pi.value * 5 / 100),
             Event.AuditInfoUpdated (some _id) (some pi) (some caller)])
        else
          some (Except.error Error.TransferFromContractFailed, self, [])
    else
      some (Except.error Error.UnAuthorisedCall, self, [])

def arbiters_extend_deadline (self : State) (caller now : Nat) (_id : Nat)
    (new_deadline : Nat) (haircut : Nat) (arbitersshare : Nat)
    (success : Bool) : CallResult :=
  match self.audit_id_to_payment_info _id with
  | none => none
  | some pi =>
    if haircut ≤ 90 ∧ now + 86400000 < new_deadline ∧
        caller = pi.arbiterprovider ∧ arbitersshare ≤ 10 ∧
        pi.currentstatus = AuditStatus.AuditAwaitingValidation then
      let arbitersscut := pi.value * arbitersshare / 100
      let haircutvalue := pi.value * haircut / 100
      let pi2 := { pi with
        value := pi.value * (100 - (arbitersshare + haircut)) / 100,
        deadline := new_deadline }
      if success then
        some (Except.ok (),
          { self with audit_id_to_payment_info :=
              mapInsert self.audit_id_to_payment_info _id pi2 },
          [Event.TokenOutgoing _id pi.arbiterprovider arbitersscut,
           Event.TokenOutgoing _id pi.patron haircutvalue,
           Event.AuditInfoUpdated (some _id) (some pi2) (some pi2.patron)])
      else
        some (Except.error Error.ArbitersExtendDeadlineConditionsNotMet, self, [])
    else
      some (Except.error Error.ArbitersExtendDeadlineConditionsNotMet, self, [])

def expire_audit (self : State) (caller now : Nat) (_id : Nat)
    (success : Bool) : CallResult :=
  match self.audit_id_to_payment_info _id with
  | none => none
  | some pi =>
    if pi.patron = caller ∧ (pi.currentstatus = AuditStatus.AuditCreated ∨
        pi.deadline ≤ now) then
      let pi2 := { pi with currentstatus := AuditStatus.AuditExpired }
      if success then
        some (Except.ok (),
          { self with audit_id_to_payment_info :=
              mapInsert self.audit_id_to_payment_info _id pi2 },
          [Event.TokenOutgoing _id pi.patron pi.value,
           Event.AuditInfoUpdated (some _id) (some pi) (some caller)])
      else
        some (Except.error Error.UnAuthorisedCall, self, [])
    else
      some (Except.error Error.UnAuthorisedCall, self, [])

end Escrow

namespace Voting

structure Arbiter where
  voter_address : Nat
  has_voted : Bool
  deriving DecidableEq

inductive AuditArbitrationResult
  | NoDiscrepancies
  | MinorDiscrepancies
  | ModerateDiscrepancies
  | Reject
  deriving DecidableEq

structure VoteInfo where
  audit_id : Nat
  arbiters : List Arbiter
  is_active : Bool
  available_votes : Nat
  decided_deadline : Nat
  decided_haircut : Nat
  admin_hit_time : Nat
  deriving DecidableEq

inductive Error
  | UnAuthorisedCall
  | AssessmentFailed
  | ResultAlreadyPublished
  | VotingFailed
  | RightsNotActivatedYet
  | TransferFailed
  deriving DecidableEq

inductive Event
  | PollCreated (id : Nat) (vote_info : VoteInfo)
  | ArbiterVoted (id : Nat) (voter : Nat)
      (vote_type : Option AuditArbitrationResult)
  | FinalVotePushed (id : Nat) (pusher : Nat)
  deriving DecidableEq

structure State where
  current_vote_id : Nat
  escrow_address : Nat
  admin : Nat
  vote_id_to_info : Nat → Option VoteInfo

abbrev CallResult := Option (Except Error Unit × State × List Event)

def get_poll_info (self : State) (id : Nat) : Option VoteInfo :=
  self.vote_id_to_info id

def create_new_poll (self : State) (caller : Nat) (_audit_id : Nat)
    (_buffer_for_admin : Nat) (_arbiters : List Arbiter) : CallResult :=
  if caller ≠ self.admin then
    some (Except.error Error.UnAuthorisedCall, self, [])
  else
    let x : VoteInfo :=
      { audit_id := _audit_id
        arbiters := _arbiters
        is_active := true
        available_votes := 0
        decided_deadline := 0
        decided_haircut := 0
        admin_hit_time := _buffer_for_admin }
    some (Except.ok (),
      { self with
          vote_id_to_info := mapInsert self.vote_id_to_info self.current_vote_id x,
          current_vote_id := self.current_vote_id + 1 },
      [Event.PollCreated self.current_vote_id x])

def vote (self : State) (caller : Nat) (_vote_id : Nat)
    (_result : AuditArbitrationResult)
    (_pre_determined_ext_call : Bool) : CallResult :=
  match self.vote_id_to_info _vote_id with
  | none => none
  | some x =>
    if x.is_active then
      match x.arbiters.findIdx? (fun a => a.voter_address == caller) with
      | none => some (Except.error Error.UnAuthorisedCall, self, [])
      | some index =>
        let arb := x.arbiters.getD index ⟨0, false⟩
        if arb.has_voted then
          some (Except.error Error.VotingFailed, self, [])
        else
          if x.available_votes + 1 = x.arbiters.length % 256 then
            match _result with
            | AuditArbitrationResult.NoDiscrepancies =>
              if 0 < x.decided_deadline then
                if _pre_determined_ext_call then
                  let x2 := { x with
                    decided_deadline := x.decided_deadline / (x.available_votes + 1),
                    decided_haircut := x.decided_haircut / (x.available_votes + 1),
                    is_active := false,
                    available_votes := x.available_votes + 1,
                    arbiters := x.arbiters.set index { arb with has_voted := true } }
                  some (Except.ok (),
                    { self with vote_id_to_info :=
                        mapInsert self.vote_id_to_info _vote_id x2 },
                    [Event.ArbiterVoted _vote_id caller (some _result),
                     Event.FinalVotePushed _vote_id caller])
                else
                  some (Except.error Error.AssessmentFailed, self, [])
              else
                if _pre_determined_ext_call then
                  let x2 := { x with
                    available_votes := x.available_votes + 1,
                    arbiters := x.arbiters.set index { arb with has_voted := true },
                    is_active := false }
                  some (Except.ok (),
                    { self with vote_id_to_info :=
                        mapInsert self.vote_id_to_info _vote_id x2 },
                    [])
                else
                  some (Except.error Error.AssessmentFailed, self, [])
            | AuditArbitrationResult.MinorDiscrepancies =>
              if _pre_determined_ext_call then
                let x2 := { x with
                  decided_deadline :=
                    (x.decided_deadline + 604800) / (x.available_votes + 1),
                  decided_haircut := (x.decided_haircut + 5) / (x.available_votes + 1),
                  available_votes := x.available_votes + 1,
                  arbiters := x.arbiters.set index { arb with has_voted := true },
                  is_active := false }
                some (Except.ok (),
                  { self with vote_id_to_info :=
                      mapInsert self.vote_id_to_info _vote_id x2 },
                  [Event.ArbiterVoted _vote_id caller (some _result),
                   Event.FinalVotePushed _vote_id caller])
              else
                some (Except.error Error.AssessmentFailed, self, [])
            | AuditArbitrationResult.ModerateDiscrepancies =>
              if _pre_determined_ext_call then
                let x2 := { x with
                  decided_deadline :=
                    (x.decided_deadline + 1209600) / (x.available_votes + 1),
                  decided_haircut := (x.decided_haircut + 15) / (x.available_votes + 1),
                  available_votes := x.available_votes + 1,
                  arbiters := x.arbiters.set index { arb with has_voted := true },
                  is_active := false }
                some (Except.ok (),
                  { self with vote_id_to_info :=
                      mapInsert self.vote_id_to_info _vote_id x2 },
                  [Event.ArbiterVoted _vote_id caller (some _result),
                   Event.FinalVotePushed _vote_id caller])
              else
                some (Except.error Error.AssessmentFailed, self, [])
            | AuditArbitrationResult.Reject =>
              if _pre_determined_ext_call then
                let x2 := { x with
                  available_votes := x.available_votes + 1,
                  arbiters := x.arbiters.set index { arb with has_voted := true },
                  is_active := false }
                some (Except.ok (),
                  { self with vote_id_to_info :=
                      mapInsert self.vote_id_to_info _vote_id x2 },
                  [Event.ArbiterVoted _vote_id caller (some _result),
                   Event.FinalVotePushed _vote_id caller])
              else
                some (Except.error Error.AssessmentFailed, self, [])
          else
            match _result with
            | AuditArbitrationResult.NoDiscrepancies =>
              let x2 := { x with
                available_votes := x.available_votes + 1,
                arbiters := x.arbiters.set index { arb with has_voted := true } }
              some (Except.ok (),
                { self with vote_id_to_info :=
                    mapInsert self.vote_id_to_info _vote_id x2 },
                [Event.ArbiterVoted _vote_id caller (some _result)])
            | AuditArbitrationResult.MinorDiscrepancies =>
              let x2 := { x with
                available_votes := x.available_votes + 1,
                arbiters := x.arbiters.set index { arb with has_voted := true },
                decided_deadline := x.decided_deadline + 604800,
                decided_haircut := x.decided_haircut + 5 }
              some (Except.ok (),
                { self with vote_id_to_info :=
                    mapInsert self.vote_id_to_info _vote_id x2 },
                [Event.ArbiterVoted _vote_id caller (some _result)])
            | AuditArbitrationResult.ModerateDiscrepancies =>
              let x2 := { x with
                available_votes := x.available_votes + 1,
                arbiters := x.arbiters.set index { arb with has_voted := true },
                decided_deadline := x.decided_deadline + 1209600,
                decided_haircut := x.decided_haircut + 15 }
              some (Except.ok (),
                { self with vote_id_to_info :=
                    mapInsert self.vote_id_to_info _vote_id x2 },
                [Event.ArbiterVoted _vote_id caller (some _result)])
            | AuditArbitrationResult.Reject =>
              if _pre_determined_ext_call then
                let x2 := { x with
                  available_votes := x.available_votes + 1,
                  arbiters := x.arbiters.set index { arb with has_voted := true },
                  is_active := false }
                some (Except.ok (),
                  { self with vote_id_to_info :=
                      mapInsert self.vote_id_to_info _vote_id x2 },
                  [Event.ArbiterVoted _vote_id caller (some _result),
                   Event.FinalVotePushed _vote_id caller])
              else
                some (Except.error Error.AssessmentFailed, self, [])
    else
      some (Except.error Error.ResultAlreadyPublished, self, [])

def force_vote (self : State) (caller now : Nat) (_vote_id : Nat)
    (_pre_determined_ext_call : Bool) : CallResult :=
  if caller ≠ self.admin then
    some (Except.error Error.UnAuthorisedCall, self, [])
  else
    match self.vote_id_to_info _vote_id with
    | none => none
    | some x =>
      if now < x.admin_hit_time then
        some (Except.error Error.RightsNotActivatedYet, self, [])
      else
        if x.is_active then
          if 0 < x.decided_deadline then
            if _pre_determined_ext_call then
              if x.available_votes = 0 then
                none
              else
                let x2 := { x with
                  is_active := false,
                  decided_deadline := x.decided_deadline / x.available_votes,
                  decided_haircut := x.decided_haircut / x.available_votes }
                some (Except.ok (),
                  { self with vote_id_to_info :=
                      mapInsert self.vote_id_to_info _vote_id x2 },
                  [Event.FinalVotePushed _vote_id caller])
            else
              some (Except.error Error.AssessmentFailed, self, [])
          else
            if _pre_determined_ext_call then
              if x.available_votes = 0 then
                none
              else
                let x2 := { x with
                  is_active := false,
                  decided_deadline := x.decided_deadline / x.available_votes,
                  decided_haircut := x.decided_haircut / x.available_votes }
                some (Except.ok (),
                  { self with vote_id_to_info :=
                      mapInsert self.vote_id_to_info _vote_id x2 },
                  [])
            else
              some (Except.error Error.AssessmentFailed, self, [])
        else
          some (Except.error Error.ResultAlreadyPublished, self, [])

def flush_out_tokens (self : State) (_token_address : Nat) (_value : Nat)
    (_pre_determined_ext_call : Bool) : CallResult :=
  if _pre_determined_ext_call then
    some (Except.ok (), self, [])
  else
    some (Except.error Error.TransferFailed, self, [])

inductive VOp
  | voteOp (caller : Nat) (res : AuditArbitrationResult) (ext : Bool)
  | forceOp (caller now : Nat) (ext : Bool)

def applyOp (id : Nat) (s : State) (op : VOp) : State :=
  match op with
  | VOp.voteOp c r e =>
    match vote s c id r e with
    | some (_, s2, _) => s2
    | none => s
  | VOp.forceOp c n e =>
    match force_vote s c n id e with
    | some (_, s2, _) => s2
    | none => s

def runOps (id : Nat) (s : State) (ops : List VOp) : State :=
  ops.foldl (applyOp id) s

def activeAt (s : State) (id : Nat) : Bool :=
  match s.vote_id_to_info id with
  | some x => x.is_active
  | none => false

end Voting

/-! Concrete fixture states used by counterexamples and witnesses. -/

def esEmpty : Escrow.State := ⟨0, 9, fun _ => none, fun _ => none, fun _ => none⟩

def piFix (st : Escrow.AuditStatus) (v : Nat) : Escrow.PaymentInfo :=
  { patron := 1, auditor := 2, value := v, arbiterprovider := 3,
    deadline := 50, starttime := 0, currentstatus := st }

def reqFix : Escrow.IncreaseRequest := { haircut_percentage := 10, new_deadline := 777 }

def esFix (st : Escrow.AuditStatus) (v : Nat) : Escrow.State :=
  ⟨1, 9, mapInsert (fun _ => none) 0 (piFix st v),
   mapInsert (fun _ => none) 0 reqFix, fun _ => none⟩

def ipfsW : String := "report"

def arbFix : List Voting.Arbiter := [⟨10, false⟩, ⟨11, false⟩, ⟨12, false⟩]

def pollFix : Voting.VoteInfo :=
  { audit_id := 7, arbiters := arbFix, is_active := true, available_votes := 0,
    decided_deadline := 0, decided_haircut := 0, admin_hit_time := 100 }

def vsFix (x : Voting.VoteInfo) : Voting.State :=
  ⟨1, 9, 1, mapInsert (fun _ => none) 0 x⟩

def pollFix1 : Voting.VoteInfo :=
  { pollFix with
    available_votes := 1, decided_deadline := 604800,
    decided_haircut := 5, arbiters := [⟨10, true⟩, ⟨11, false⟩, ⟨12, false⟩] }

/-- C2 counterexample: openAudit (create_new_payment) called with value zero
does not return the typed error InvalidValue (no such variant exists in the
error enumeration); the call hits the assertion and panics, modelled as none. -/
theorem create_new_payment_zero_value_no_typed_error :
    Escrow.create_new_payment esEmpty 5 0 0 7 1000 1 true = none := rfl

/-- C2 (amended): openAudit (create_new_payment) called with value equal to
zero panics on the assertion for every caller, arbiter-provider, deadline
offset, salt and transfer outcome; it returns no typed error. -/
theorem create_new_payment_zero_value_panics (s : Escrow.State)
    (caller now arb dl salt : Nat) (success : Bool) :
    Escrow.create_new_payment s caller now 0 arb dl salt success = none := rfl

/-- C1 counterexample: assign_audit called with an audit id for which no
record is stored panics on the unwrap of the lookup (modelled as none)
instead of returning Ok or a typed error. -/
theorem assign_audit_missing_id_panics :
    Escrow.assign_audit esEmpty 1 0 5 2 100 1000 true = none := rfl

/-- C1 (amended): every entry point of the escrow ledger and of the voting
coordinator returns Ok or one of the typed errors, provided the records it
unwraps exist (the payment record of the named audit id, the pending
extension request for approve_additional_time, the poll of the named poll
id), the value passed to create_new_payment is nonzero, and the poll passed
to force_vote has at least one vote; a call that names a missing record,
a zero value, or a zero vote count instead panics (modelled as none). -/
theorem entry_points_total_on_existing_records
    (es : Escrow.State) (vs : Voting.State)
    (caller now id value arb dl salt nv nd hc sh tok : Nat) (ipfs : String)
    (answer success ext : Bool) (res : Voting.AuditArbitrationResult)
    (arbs : List Voting.Arbiter) :
    (value ≠ 0 →
      (Escrow.create_new_payment es caller now value arb dl salt success).isSome = true) ∧
    ((es.audit_id_to_payment_info id).isSome = true →
      (Escrow.assign_audit es caller now id arb nv nd success).isSome = true) ∧
    ((es.audit_id_to_payment_info id).isSome = true →
      (Escrow.request_additional_time es caller id nd hc).isSome = true) ∧
    ((es.audit_id_to_payment_info id).isSome = true →
      (es.audit_id_to_time_increase_request id).isSome = true →
      (Escrow.approve_additional_time es caller id success).isSome = true) ∧
    ((es.audit_id_to_payment_info id).isSome = true →
      (Escrow.mark_submitted es caller now id ipfs).isSome = true) ∧
    ((es.audit_id_to_payment_info id).isSome = true →
      (Escrow.assess_audit es caller id answer success).isSome = true) ∧
    ((es.audit_id_to_payment_info id).isSome = true →
      (Escrow.arbiters_extend_deadline es caller now id nd hc sh success).isSome = true) ∧
    ((es.audit_id_to_payment_info id).isSome = true →
      (Escrow.expire_audit es caller now id success).isSome = true) ∧
    (Voting.create_new_poll vs caller id dl arbs).isSome = true ∧
    ((vs.vote_id_to_info id).isSome = true →
      (Voting.vote vs caller id res ext).isSome = true) ∧
    (∀ x, vs.vote_id_to_info id = some x → 0 < x.available_votes →
      (Voting.force_vote vs caller now id ext).isSome = true) ∧
    (Voting.flush_out_tokens vs tok value ext).isSome = true := by
  refine ⟨?_, ?_, ?_, ?_, ?_, ?_, ?_, ?_, ?_, ?_, ?_, ?_⟩
  · intro h
    simp only [Escrow.create_new_payment]
    rw [if_neg h]
    cases success <;> simp
  · intro h
    obtain ⟨pi, hpi⟩ := Option.isSome_iff_exists.mp h
    simp only [Escrow.assign_audit, hpi]
    repeat' split <;> try simp
  · intro h
    obtain ⟨pi, hpi⟩ := Option.isSome_iff_exists.mp h
    simp only [Escrow.request_additional_time, Escrow.get_paymentinfo, hpi]
    repeat' split <;> try simp
  · intro h h2
    obtain ⟨pi, hpi⟩ := Option.isSome_iff_exists.mp h
    obtain ⟨req, hreq⟩ := Option.isSome_iff_exists.mp h2
    simp only [Escrow.approve_additional_time, Escrow.get_paymentinfo,
      Escrow.query_timeincreaserequest, hpi, hreq]
    repeat' split <;> try simp
  · intro h
    obtain ⟨pi, hpi⟩ := Option.isSome_iff_exists.mp h
    simp only [Escrow.mark_submitted, hpi]
    repeat' split <;> try simp
  · intro h
    obtain ⟨pi, hpi⟩ := Option.isSome_iff_exists.mp h
    simp only [Escrow.assess_audit, hpi]
    repeat' split <;> try simp
  · intro h
    obtain ⟨pi, hpi⟩ := Option.isSome_iff_exists.mp h
    simp only [Escrow.arbiters_extend_deadline, hpi]
    repeat' split <;> try simp
  · intro h
    obtain ⟨pi, hpi⟩ := Option.isSome_iff_exists.mp h
    simp only [Escrow.expire_audit, hpi]
    repeat' split <;> try simp
  · simp only [Voting.create_new_poll]
    repeat' split <;> try simp
  · intro h
    obtain ⟨x, hx⟩ := Option.isSome_iff_exists.mp h
    simp only [Voting.vote, hx]
    repeat' split <;> try simp
  · intro x hx hv
    simp only [Voting.force_vote, hx]
    repeat' split <;> try simp
    all_goals omega
  · simp only [Voting.flush_out_tokens]
    cases ext <;> simp

/-- C1 witness: the totality statement applied to concrete states whose
records exist, with every hypothesis discharged by evaluation. -/
theorem entry_points_total_on_existing_records_witness :
    (Escrow.create_new_payment (esFix Escrow.AuditStatus.AuditCreated 100) 1 0 5 3 10 1 true).isSome = true ∧
    (Escrow.assign_audit (esFix Escrow.AuditStatus.AuditCreated 100) 1 0 0 3 100 50 true).isSome = true ∧
    (Escrow.request_additional_time (esFix Escrow.AuditStatus.AuditCreated 100) 1 0 50 5).isSome = true ∧
    (Escrow.approve_additional_time (esFix Escrow.AuditStatus.AuditCreated 100) 1 0 true).isSome = true ∧
    (Escrow.mark_submitted (esFix Escrow.AuditStatus.AuditCreated 100) 1 0 0 ipfsW).isSome = true ∧
    (Escrow.assess_audit (esFix Escrow.AuditStatus.AuditCreated 100) 1 0 true true).isSome = true ∧
    (Escrow.arbiters_extend_deadline (esFix Escrow.AuditStatus.AuditCreated 100) 1 0 0 50 5 5 true).isSome = true ∧
    (Escrow.expire_audit (esFix Escrow.AuditStatus.AuditCreated 100) 1 0 0 true).isSome = true ∧
    (Voting.create_new_poll (vsFix pollFix1) 1 0 10 []).isSome = true ∧
    (Voting.vote (vsFix pollFix1) 1 0 Voting.AuditArbitrationResult.NoDiscrepancies true).isSome = true ∧
    (Voting.force_vote (vsFix pollFix1) 1 0 0 true).isSome = true ∧
    (Voting.flush_out_tokens (vsFix pollFix1) 4 5 true).isSome = true := by
  have h := entry_points_total_on_existing_records
    (esFix Escrow.AuditStatus.AuditCreated 100) (vsFix pollFix1)
    1 0 0 5 3 10 1 100 50 5 5 4 ipfsW true true true
    Voting.AuditArbitrationResult.NoDiscrepancies []
  exact ⟨h.1 (by decide), h.2.1 (by rfl), h.2.2.1 (by rfl),
    h.2.2.2.1 (by rfl) (by rfl), h.2.2.2.2.1 (by rfl), h.2.2.2.2.2.1 (by rfl),
    h.2.2.2.2.2.2.1 (by rfl), h.2.2.2.2.2.2.2.1 (by rfl),
    h.2.2.2.2.2.2.2.2.1, h.2.2.2.2.2.2.2.2.2.1 (by rfl),
    h.2.2.2.2.2.2.2.2.2.2.1 pollFix1 (by rfl) (by decide),
    h.2.2.2.2.2.2.2.2.2.2.2⟩

def setStatus (pi : Escrow.PaymentInfo) (st : Escrow.AuditStatus) : Escrow.PaymentInfo :=
  { pi with currentstatus := st }

def insertPI (s : Escrow.State) (id : Nat) (pi : Escrow.PaymentInfo) : Escrow.State :=
  { s with audit_id_to_payment_info := mapInsert s.audit_id_to_payment_info id pi }

/-- C3: a successful assess_audit with accept=true by the patron in status
Submitted pays the auditor value*98/100 and the arbiter-provider
value*2/100 (truncating division) and the two payouts together never
exceed the value; a successful assess_audit with accept=true by the
arbiter-provider in status AwaitingValidation pays value*95/100 plus
value*5/100, again never exceeding the value in total. -/
theorem assess_audit_accept_payout_split
    (s : Escrow.State) (caller id : Nat) (pi : Escrow.PaymentInfo)
    (h : s.audit_id_to_payment_info id = some pi) :
    (caller = pi.patron → pi.currentstatus = Escrow.AuditStatus.AuditSubmitted →
      Escrow.assess_audit s caller id true true =
        some (Except.ok (),
          insertPI s id (setStatus pi Escrow.AuditStatus.AuditCompleted),
          [Escrow.Event.TokenOutgoing id pi.auditor (pi.value * 98 / 100),
           Escrow.Event.TokenOutgoing id pi.arbiterprovider (pi.value * 2 / 100)]) ∧
      pi.value * 98 / 100 + pi.value * 2 / 100 ≤ pi.value) ∧
    (caller = pi.arbiterprovider →
      pi.currentstatus = Escrow.AuditStatus.AuditAwaitingValidation →
      Escrow.assess_audit s caller id true true =
        some (Except.ok (),
          insertPI s id (setStatus pi Escrow.AuditStatus.AuditCompleted),
          [Escrow.Event.TokenOutgoing id pi.auditor (pi.value * 95 / 100),
           Escrow.Event.TokenOutgoing id pi.arbiterprovider (pi.value * 5 / 100)]) ∧
      pi.value * 95 / 100 + pi.value * 5 / 100 ≤ pi.value) := by
  have key : ∀ a b : Nat, a + b = 100 →
      pi.value * a / 100 + pi.value * b / 100 ≤ pi.value := by
    intro a b hab
    calc pi.value * a / 100 + pi.value * b / 100
        ≤ (pi.value * a + pi.value * b) / 100 := div_add_div_le _ _ _
      _ = pi.value * 100 / 100 := by rw [← Nat.mul_add, hab]
      _ = pi.value := Nat.mul_div_cancel pi.value (by norm_num)
  constructor
  · intro hc hs
    subst hc
    refine ⟨?_, key 98 2 rfl⟩
    simp [Escrow.assess_audit, h, hs, insertPI, setStatus]
  · intro hc hs
    subst hc
    refine ⟨?_, key 95 5 rfl⟩
    simp [Escrow.assess_audit, h, hs, insertPI, setStatus]

/-- C3 witness: the payout split evaluated on a concrete audit of value 100
in both the patron and the arbiter-provider branch. -/
theorem assess_audit_accept_payout_split_witness :
    (Escrow.assess_audit (esFix Escrow.AuditStatus.AuditSubmitted 100) 1 0 true true =
      some (Except.ok (),
        insertPI (esFix Escrow.AuditStatus.AuditSubmitted 100) 0
          (setStatus (piFix Escrow.AuditStatus.AuditSubmitted 100) Escrow.AuditStatus.AuditCompleted),
        [Escrow.Event.TokenOutgoing 0 2 98, Escrow.Event.TokenOutgoing 0 3 2]) ∧
      98 + 2 ≤ 100) ∧
    (Escrow.assess_audit (esFix Escrow.AuditStatus.AuditAwaitingValidation 100) 3 0 true true =
      some (Except.ok (),
        insertPI (esFix Escrow.AuditStatus.AuditAwaitingValidation 100) 0
          (setStatus (piFix Escrow.AuditStatus.AuditAwaitingValidation 100) Escrow.AuditStatus.AuditCompleted),
        [Escrow.Event.TokenOutgoing 0 2 95, Escrow.Event.TokenOutgoing 0 3 5]) ∧
      95 + 5 ≤ 100) := by
  refine ⟨?_, ?_⟩
  · exact (assess_audit_accept_payout_split (esFix Escrow.AuditStatus.AuditSubmitted 100) 1 0
      (piFix Escrow.AuditStatus.AuditSubmitted 100) rfl).1 rfl rfl
  · exact (assess_audit_accept_payout_split (esFix Escrow.AuditStatus.AuditAwaitingValidation 100) 3 0
      (piFix Escrow.AuditStatus.AuditAwaitingValidation 100) rfl).2 rfl rfl

def approvedInfo (pi : Escrow.PaymentInfo) (req : Escrow.IncreaseRequest) : Escrow.PaymentInfo :=
  { pi with
    value := pi.value * (100 - req.haircut_percentage) / 100,
    deadline := req.new_deadline }

/-- C4 counterexample: on an audit of value 105 with a stored request of
haircut 10, a successful approve_additional_time pays the cut
105*10/100 = 10 but stores the new value 105*90/100 = 94, while the claim
predicts old value minus cut, which is 95. -/
theorem approve_additional_time_rounding_counterexample :
    (Escrow.approve_additional_time (esFix Escrow.AuditStatus.AuditAssigned 105) 1 0 true).map
        (fun r => (r.2.1.audit_id_to_payment_info 0).map Escrow.PaymentInfo.value)
      = some (some 94) ∧
    (Escrow.approve_additional_time (esFix Escrow.AuditStatus.AuditAssigned 105) 1 0 true).map
        (fun r => r.2.2)
      = some [Escrow.Event.TokenOutgoing 0 1 10,
              Escrow.Event.AuditInfoUpdated (some 0)
                (some (approvedInfo (piFix Escrow.AuditStatus.AuditAssigned 105) reqFix)) (some 1)] ∧
    105 - 105 * 10 / 100 = 95 ∧ ¬ (94 : Nat) = 95 := by
  refine ⟨rfl, rfl, rfl, by decide⟩

/-- C4 (amended): for every audit whose patron calls approve_additional_time
with a stored extension request whose haircut is less than 100 and whose
payout transfer succeeds, the paid cut equals value*haircut/100 with
truncating integer division, the new stored value equals
value*(100-haircut)/100 (which is at most, but not always equal to, the
old value minus that cut), the deadline becomes the proposed deadline of
the request, the status is unchanged, and a transfer failure yields
TransferFromContractFailed with no state change. -/
theorem approve_additional_time_behavior
    (s : Escrow.State) (caller id : Nat) (pi : Escrow.PaymentInfo)
    (req : Escrow.IncreaseRequest)
    (h : s.audit_id_to_payment_info id = some pi)
    (hr : s.audit_id_to_time_increase_request id = some req)
    (hc : caller = pi.patron)
    (hh : req.haircut_percentage < 100) :
    Escrow.approve_additional_time s caller id true =
      some (Except.ok (), insertPI s id (approvedInfo pi req),
        [Escrow.Event.TokenOutgoing id pi.patron (pi.value * req.haircut_percentage / 100),
         Escrow.Event.AuditInfoUpdated (some id) (some (approvedInfo pi req)) (some pi.patron)]) ∧
    Escrow.approve_additional_time s caller id false =
      some (Except.error Escrow.Error.TransferFromContractFailed, s, []) ∧
    pi.value * (100 - req.haircut_percentage) / 100 ≤
      pi.value - pi.value * req.haircut_percentage / 100 := by
  subst hc
  refine ⟨?_, ?_, ?_⟩
  · simp [Escrow.approve_additional_time, Escrow.get_paymentinfo,
      Escrow.query_timeincreaserequest, h, hr, hh, insertPI, approvedInfo]
  · simp [Escrow.approve_additional_time, Escrow.get_paymentinfo,
      Escrow.query_timeincreaserequest, h, hr, hh]
  · apply Nat.le_sub_of_add_le
    calc pi.value * (100 - req.haircut_percentage) / 100 +
          pi.value * req.haircut_percentage / 100
        ≤ (pi.value * (100 - req.haircut_percentage) +
            pi.value * req.haircut_percentage) / 100 := div_add_div_le _ _ _
      _ = pi.value * 100 / 100 := by
          rw [← Nat.mul_add, Nat.sub_add_cancel (Nat.le_of_lt hh)]
      _ = pi.value := Nat.mul_div_cancel pi.value (by norm_num)

/-- C4 witness: the amended behavior evaluated on a concrete audit of value
100 with a stored haircut-10 request. -/
theorem approve_additional_time_behavior_witness :
    Escrow.approve_additional_time (esFix Escrow.AuditStatus.AuditAssigned 100) 1 0 true =
      some (Except.ok (),
        insertPI (esFix Escrow.AuditStatus.AuditAssigned 100) 0
          (approvedInfo (piFix Escrow.AuditStatus.AuditAssigned 100) reqFix),
        [Escrow.Event.TokenOutgoing 0 1 10,
         Escrow.Event.AuditInfoUpdated (some 0)
           (some (approvedInfo (piFix Escrow.AuditStatus.AuditAssigned 100) reqFix)) (some 1)]) ∧
    Escrow.approve_additional_time (esFix Escrow.AuditStatus.AuditAssigned 100) 1 0 false =
      some (Except.error Escrow.Error.TransferFromContractFailed,
        esFix Escrow.AuditStatus.AuditAssigned 100, []) ∧
    (90 : Nat) ≤ 100 - 10 := by
  exact approve_additional_time_behavior (esFix Escrow.AuditStatus.AuditAssigned 100) 1 0
    (piFix Escrow.AuditStatus.AuditAssigned 100) reqFix rfl rfl rfl (by decide)

/-- C10: approve_additional_time never checks the audit status: for an audit
in any status (the conclusion holds for every pi, in particular with
currentstatus AuditCompleted or AuditExpired), a patron call with a stored
request whose haircut is below 100 and a successful transfer rewrites the
stored value to value*(100-haircut)/100 (at most the old value) and
overwrites the deadline, while the status field is passed through
unchanged, so terminal audit records are not immutable. -/
theorem approve_additional_time_ignores_status
    (s : Escrow.State) (caller id : Nat) (pi : Escrow.PaymentInfo)
    (req : Escrow.IncreaseRequest)
    (h : s.audit_id_to_payment_info id = some pi)
    (hr : s.audit_id_to_time_increase_request id = some req)
    (hc : caller = pi.patron)
    (hh : req.haircut_percentage < 100) :
    Escrow.approve_additional_time s caller id true =
      some (Except.ok (), insertPI s id (approvedInfo pi req),
        [Escrow.Event.TokenOutgoing id pi.patron (pi.value * req.haircut_percentage / 100),
         Escrow.Event.AuditInfoUpdated (some id) (some (approvedInfo pi req)) (some pi.patron)]) ∧
    (approvedInfo pi req).currentstatus = pi.currentstatus ∧
    (approvedInfo pi req).value ≤ pi.value ∧
    (approvedInfo pi req).deadline = req.new_deadline := by
  subst hc
  refine ⟨?_, rfl, ?_, rfl⟩
  · simp [Escrow.approve_additional_time, Escrow.get_paymentinfo,
      Escrow.query_timeincreaserequest, h, hr, hh, insertPI, approvedInfo]
  · show pi.value * (100 - req.haircut_percentage) / 100 ≤ pi.value
    calc pi.value * (100 - req.haircut_percentage) / 100
        ≤ pi.value * 100 / 100 :=
          Nat.div_le_div_right (Nat.mul_le_mul_left pi.value (Nat.sub_le 100 _))
      _ = pi.value := Nat.mul_div_cancel pi.value (by norm_num)

/-- C10 witness: a patron mutates an audit in the terminal status
AuditCompleted, reducing its value from 100 to 90 and overwriting its
deadline with 777, the status staying AuditCompleted. -/
theorem approve_additional_time_ignores_status_witness :
    Escrow.approve_additional_time (esFix Escrow.AuditStatus.AuditCompleted 100) 1 0 true =
      some (Except.ok (),
        insertPI (esFix Escrow.AuditStatus.AuditCompleted 100) 0
          (approvedInfo (piFix Escrow.AuditStatus.AuditCompleted 100) reqFix),
        [Escrow.Event.TokenOutgoing 0 1 10,
         Escrow.Event.AuditInfoUpdated (some 0)
           (some (approvedInfo (piFix Escrow.AuditStatus.AuditCompleted 100) reqFix)) (some 1)]) ∧
    (approvedInfo (piFix Escrow.AuditStatus.AuditCompleted 100) reqFix).currentstatus =
      Escrow.AuditStatus.AuditCompleted ∧
    (approvedInfo (piFix Escrow.AuditStatus.AuditCompleted 100) reqFix).value ≤ 100 ∧
    (approvedInfo (piFix Escrow.AuditStatus.AuditCompleted 100) reqFix).deadline = 777 := by
  exact approve_additional_time_ignores_status (esFix Escrow.AuditStatus.AuditCompleted 100) 1 0
    (piFix Escrow.AuditStatus.AuditCompleted 100) reqFix rfl rfl rfl (by decide)

def isOkE (o : Escrow.CallResult) : Bool :=
  match o with
  | some (Except.ok _, _, _) => true
  | _ => false

def submittedState (s : Escrow.State) (id : Nat) (pi : Escrow.PaymentInfo)
    (ipfs : String) : Escrow.State :=
  { s with
      audit_id_to_ipfs_hash := mapInsert s.audit_id_to_ipfs_hash id ipfs,
      audit_id_to_payment_info :=
        mapInsert s.audit_id_to_payment_info id
          (setStatus pi Escrow.AuditStatus.AuditSubmitted) }

/-- C5: for every existing audit whose assigned worker (auditor) calls
mark_submitted, the call succeeds if and only if the status is
AuditAssigned and the current time is strictly before the deadline; a
wrong status fails with WrongState, a passed deadline fails with
DeadlinePassed, and every failure returns the state unchanged. -/
theorem mark_submitted_iff_assigned_before_deadline
    (s : Escrow.State) (caller now id : Nat) (pi : Escrow.PaymentInfo) (ipfs : String)
    (h : s.audit_id_to_payment_info id = some pi)
    (hc : caller = pi.auditor) :
    (pi.currentstatus = Escrow.AuditStatus.AuditAssigned → now < pi.deadline →
      Escrow.mark_submitted s caller now id ipfs =
        some (Except.ok (), submittedState s id pi ipfs,
          [Escrow.Event.AuditSubmitted id ipfs])) ∧
    (pi.currentstatus ≠ Escrow.AuditStatus.AuditAssigned →
      Escrow.mark_submitted s caller now id ipfs =
        some (Except.error Escrow.Error.WrongState, s, [])) ∧
    (pi.currentstatus = Escrow.AuditStatus.AuditAssigned → pi.deadline ≤ now →
      Escrow.mark_submitted s caller now id ipfs =
        some (Except.error Escrow.Error.DeadlinePassed, s, [])) ∧
    (isOkE (Escrow.mark_submitted s caller now id ipfs) = true ↔
      (pi.currentstatus = Escrow.AuditStatus.AuditAssigned ∧ now < pi.deadline)) := by
  subst hc
  refine ⟨?_, ?_, ?_, ?_⟩
  · intro h1 h2
    simp [Escrow.mark_submitted, h, h1, h2, submittedState, setStatus]
  · intro h1
    simp [Escrow.mark_submitted, h, h1]
  · intro h1 h2
    simp [Escrow.mark_submitted, h, h1, Nat.not_lt.mpr h2]
  · by_cases h1 : pi.currentstatus = Escrow.AuditStatus.AuditAssigned
    · by_cases h2 : now < pi.deadline
      · simp [Escrow.mark_submitted, h, h1, h2, isOkE]
      · simp [Escrow.mark_submitted, h, h1, h2, isOkE]
    · simp [Escrow.mark_submitted, h, h1, isOkE]

/-- C5 witness: the auditor of a concrete assigned audit submits before the
deadline and the call succeeds. -/
theorem mark_submitted_iff_assigned_before_deadline_witness :
    Escrow.mark_submitted (esFix Escrow.AuditStatus.AuditAssigned 100) 2 0 0 ipfsW =
      some (Except.ok (),
        submittedState (esFix Escrow.AuditStatus.AuditAssigned 100) 0
          (piFix Escrow.AuditStatus.AuditAssigned 100) ipfsW,
        [Escrow.Event.AuditSubmitted 0 ipfsW]) ∧
    isOkE (Escrow.mark_submitted (esFix Escrow.AuditStatus.AuditAssigned 100) 2 0 0 ipfsW) = true := by
  have h := mark_submitted_iff_assigned_before_deadline
    (esFix Escrow.AuditStatus.AuditAssigned 100) 2 0 0
    (piFix Escrow.AuditStatus.AuditAssigned 100) ipfsW rfl rfl
  exact ⟨h.1 rfl (by decide), h.2.2.2.mpr ⟨rfl, by decide⟩⟩

def extendedInfo (pi : Escrow.PaymentInfo) (ndl hcut share : Nat) : Escrow.PaymentInfo :=
  { pi with
    value := pi.value * (100 - (share + hcut)) / 100,
    deadline := ndl }

/-- C6: arbiters_extend_deadline succeeds only when the caller is the
arbiter-provider, the status is AwaitingValidation, haircut is at most 90,
arbiter share is at most 10, the new deadline exceeds now plus one day
(86400000 ms), and the transfer succeeds; a violation of the five checked
conditions yields ArbitersExtendDeadlineConditionsNotMet with the state
unchanged; on success the stored value becomes
value*(100-(haircut+share))/100, the deadline is updated, and the cuts
value*share/100 and value*haircut/100 are paid out. -/
theorem arbiters_extend_deadline_conditions_and_effects
    (s : Escrow.State) (caller now id ndl hcut share : Nat) (pi : Escrow.PaymentInfo)
    (h : s.audit_id_to_payment_info id = some pi) :
    (hcut ≤ 90 → now + 86400000 < ndl → caller = pi.arbiterprovider → share ≤ 10 →
      pi.currentstatus = Escrow.AuditStatus.AuditAwaitingValidation →
      Escrow.arbiters_extend_deadline s caller now id ndl hcut share true =
        some (Except.ok (), insertPI s id (extendedInfo pi ndl hcut share),
          [Escrow.Event.TokenOutgoing id pi.arbiterprovider (pi.value * share / 100),
           Escrow.Event.TokenOutgoing id pi.patron (pi.value * hcut / 100),
           Escrow.Event.AuditInfoUpdated (some id)
             (some (extendedInfo pi ndl hcut share)) (some pi.patron)])) ∧
    (∀ success, ¬(hcut ≤ 90 ∧ now + 86400000 < ndl ∧ caller = pi.arbiterprovider ∧
        share ≤ 10 ∧ pi.currentstatus = Escrow.AuditStatus.AuditAwaitingValidation) →
      Escrow.arbiters_extend_deadline s caller now id ndl hcut share success =
        some (Except.error Escrow.Error.ArbitersExtendDeadlineConditionsNotMet, s, [])) ∧
    (∀ success,
      isOkE (Escrow.arbiters_extend_deadline s caller now id ndl hcut share success) = true →
      hcut ≤ 90 ∧ now + 86400000 < ndl ∧ caller = pi.arbiterprovider ∧ share ≤ 10 ∧
        pi.currentstatus = Escrow.AuditStatus.AuditAwaitingValidation ∧ success = true) := by
  refine ⟨?_, ?_, ?_⟩
  · intro h1 h2 h3 h4 h5
    subst h3
    simp [Escrow.arbiters_extend_deadline, h, h1, h2, h4, h5, insertPI, extendedInfo]
  · intro success hn
    simp only [Escrow.arbiters_extend_deadline, h]
    rw [if_neg hn]
  · intro success hok
    by_cases hcond : hcut ≤ 90 ∧ now + 86400000 < ndl ∧ caller = pi.arbiterprovider ∧
        share ≤ 10 ∧ pi.currentstatus = Escrow.AuditStatus.AuditAwaitingValidation
    · obtain ⟨c1, c2, c3, c4, c5⟩ := hcond
      cases success
      · simp [Escrow.arbiters_extend_deadline, h, c1, c2, c3, c4, c5, isOkE] at hok
      · exact ⟨c1, c2, c3, c4, c5, rfl⟩
    · simp only [Escrow.arbiters_extend_deadline, h] at hok
      rw [if_neg hcond] at hok
      simp [isOkE] at hok

/-- C6 witness: a concrete successful extension with haircut 5 and share 5
on a value-100 audit, and a concrete rejection with haircut 91. -/
theorem arbiters_extend_deadline_conditions_and_effects_witness :
    Escrow.arbiters_extend_deadline (esFix Escrow.AuditStatus.AuditAwaitingValidation 100)
        3 0 0 86400001 5 5 true =
      some (Except.ok (),
        insertPI (esFix Escrow.AuditStatus.AuditAwaitingValidation 100) 0
          (extendedInfo (piFix Escrow.AuditStatus.AuditAwaitingValidation 100) 86400001 5 5),
        [Escrow.Event.TokenOutgoing 0 3 5,
         Escrow.Event.TokenOutgoing 0 1 5,
         Escrow.Event.AuditInfoUpdated (some 0)
           (some (extendedInfo (piFix Escrow.AuditStatus.AuditAwaitingValidation 100) 86400001 5 5))
           (some 1)]) ∧
    Escrow.arbiters_extend_deadline (esFix Escrow.AuditStatus.AuditAwaitingValidation 100)
        3 0 0 86400001 91 5 true =
      some (Except.error Escrow.Error.ArbitersExtendDeadlineConditionsNotMet,
        esFix Escrow.AuditStatus.AuditAwaitingValidation 100, []) := by
  constructor
  · exact (arbiters_extend_deadline_conditions_and_effects
      (esFix Escrow.AuditStatus.AuditAwaitingValidation 100) 3 0 0 86400001 5 5
      (piFix Escrow.AuditStatus.AuditAwaitingValidation 100) rfl).1
      (by decide) (by decide) rfl (by decide) rfl
  · exact (arbiters_extend_deadline_conditions_and_effects
      (esFix Escrow.AuditStatus.AuditAwaitingValidation 100) 3 0 0 86400001 91 5
      (piFix Escrow.AuditStatus.AuditAwaitingValidation 100) rfl).2.1 true
      (by intro hcond; exact absurd hcond.1 (by decide))

def pollInactive : Voting.VoteInfo := { pollFix with is_active := false }

def insertVI (s : Voting.State) (id : Nat) (x : Voting.VoteInfo) : Voting.State :=
  { s with vote_id_to_info := mapInsert s.vote_id_to_info id x }

lemma applyOp_of_inactive (s : Voting.State) (id : Nat) (op : Voting.VOp)
    (h : Voting.activeAt s id = false) : Voting.applyOp id s op = s := by
  cases op with
  | voteOp c r e =>
    simp only [Voting.applyOp]
    cases hx : s.vote_id_to_info id with
    | none => simp [Voting.vote, hx]
    | some x =>
      have h2 : x.is_active = false := by simpa [Voting.activeAt, hx] using h
      simp [Voting.vote, hx, h2]
  | forceOp c n e =>
    simp only [Voting.applyOp]
    by_cases hc : c = s.admin
    · cases hx : s.vote_id_to_info id with
      | none => simp [Voting.force_vote, hx, hc]
      | some x =>
        have h2 : x.is_active = false := by simpa [Voting.activeAt, hx] using h
        by_cases hn : n < x.admin_hit_time
        · simp [Voting.force_vote, hx, hc, hn]
        · simp [Voting.force_vote, hx, hc, hn, h2]
    · simp [Voting.force_vote, hc]

/-- C7 counterexample: force_vote on an inactive poll called by the admin
before the override time fails with RightsNotActivatedYet, not with
ResultAlreadyPublished as the claim states. -/
theorem force_vote_inactive_poll_error_counterexample :
    Voting.force_vote (vsFix pollInactive) 1 50 0 true =
      some (Except.error Voting.Error.RightsNotActivatedYet, vsFix pollInactive, []) ∧
    Voting.Error.RightsNotActivatedYet ≠ Voting.Error.ResultAlreadyPublished := by
  exact ⟨rfl, by decide⟩

/-- C7 (amended): a poll becomes inactive at most once and no operation
finalizes an already-inactive poll: vote on an inactive poll fails with
ResultAlreadyPublished without changing the state; force_vote on an
inactive poll fails with ResultAlreadyPublished when called by the admin
at or after the override time (and with another typed error otherwise);
any vote or force_vote step on an inactive poll leaves the whole state
unchanged; a step never turns the active flag on; and any sequence of
vote and force_vote calls on an inactive poll is a no-op. -/
theorem poll_inactive_frozen_and_one_shot
    (s : Voting.State) (caller now id : Nat) (x : Voting.VoteInfo)
    (res : Voting.AuditArbitrationResult) (ext : Bool) (op : Voting.VOp)
    (ops : List Voting.VOp) :
    (s.vote_id_to_info id = some x → x.is_active = false →
      Voting.vote s caller id res ext =
        some (Except.error Voting.Error.ResultAlreadyPublished, s, [])) ∧
    (s.vote_id_to_info id = some x → x.is_active = false → caller = s.admin →
      x.admin_hit_time ≤ now →
      Voting.force_vote s caller now id ext =
        some (Except.error Voting.Error.ResultAlreadyPublished, s, [])) ∧
    (Voting.activeAt s id = false → Voting.applyOp id s op = s) ∧
    (Voting.activeAt (Voting.applyOp id s op) id = true →
      Voting.activeAt s id = true) ∧
    (Voting.activeAt s id = false → Voting.runOps id s ops = s) := by
  refine ⟨?_, ?_, ?_, ?_, ?_⟩
  · intro hx hact
    simp [Voting.vote, hx, hact]
  · intro hx hact hadm hhit
    subst hadm
    simp [Voting.force_vote, hx, hact, Nat.not_lt.mpr hhit]
  · exact applyOp_of_inactive s id op
  · intro hafter
    by_cases hact : Voting.activeAt s id
    · exact hact
    · rw [applyOp_of_inactive s id op (by simpa using hact)] at hafter
      exact hafter
  · intro hact
    induction ops with
    | nil => rfl
    | cons op2 rest ih =>
      show Voting.runOps id (Voting.applyOp id s op2) rest = s
      rw [applyOp_of_inactive s id op2 hact]
      exact ih

/-- C7 witness: the frozen-poll facts evaluated on a concrete inactive
poll, including a two-step vote and force_vote sequence that is a no-op. -/
theorem poll_inactive_frozen_and_one_shot_witness :
    Voting.vote (vsFix pollInactive) 10 0 Voting.AuditArbitrationResult.Reject true =
      some (Except.error Voting.Error.ResultAlreadyPublished, vsFix pollInactive, []) ∧
    Voting.force_vote (vsFix pollInactive) 1 200 0 true =
      some (Except.error Voting.Error.ResultAlreadyPublished, vsFix pollInactive, []) ∧
    Voting.runOps 0 (vsFix pollInactive)
      [Voting.VOp.voteOp 10 Voting.AuditArbitrationResult.Reject true,
       Voting.VOp.forceOp 1 200 true] = vsFix pollInactive := by
  refine ⟨?_, ?_, ?_⟩
  · exact (poll_inactive_frozen_and_one_shot (vsFix pollInactive) 10 200 0 pollInactive
      Voting.AuditArbitrationResult.Reject true (Voting.VOp.forceOp 1 200 true) []).1 rfl rfl
  · exact (poll_inactive_frozen_and_one_shot (vsFix pollInactive) 1 200 0 pollInactive
      Voting.AuditArbitrationResult.Reject true (Voting.VOp.forceOp 1 200 true) []).2.1
      rfl rfl rfl (by decide)
  · exact (poll_inactive_frozen_and_one_shot (vsFix pollInactive) 1 200 0 pollInactive
      Voting.AuditArbitrationResult.Reject true (Voting.VOp.forceOp 1 200 true)
      [Voting.VOp.voteOp 10 Voting.AuditArbitrationResult.Reject true,
       Voting.VOp.forceOp 1 200 true]).2.2.2.2 rfl

def forcedInfo (x : Voting.VoteInfo) : Voting.VoteInfo :=
  { x with
    is_active := false,
    decided_deadline := x.decided_deadline / x.available_votes,
    decided_haircut := x.decided_haircut / x.available_votes }

/-- C8: force_vote called by the admin at or after the override time on an
active poll with ext-call success finalizes by dividing both accumulators
by the current vote count with no guard on the zero-vote case: with zero
votes the divisor is zero and the call panics (modelled as none) rather
than returning a typed error, while with a positive vote count it stores
the divided accumulators and deactivates the poll. -/
theorem force_vote_zero_votes_divides_by_zero
    (s : Voting.State) (caller now id : Nat) (x : Voting.VoteInfo)
    (h : s.vote_id_to_info id = some x) (hadm : caller = s.admin)
    (hhit : x.admin_hit_time ≤ now) (hact : x.is_active = true) :
    (x.available_votes = 0 → Voting.force_vote s caller now id true = none) ∧
    (0 < x.available_votes → 0 < x.decided_deadline →
      Voting.force_vote s caller now id true =
        some (Except.ok (), insertVI s id (forcedInfo x),
          [Voting.Event.FinalVotePushed id caller])) ∧
    (0 < x.available_votes → x.decided_deadline = 0 →
      Voting.force_vote s caller now id true =
        some (Except.ok (), insertVI s id (forcedInfo x), [])) := by
  subst hadm
  refine ⟨?_, ?_, ?_⟩
  · intro hv
    simp [Voting.force_vote, h, hact, Nat.not_lt.mpr hhit, hv]
  · intro hv hd
    simp [Voting.force_vote, h, hact, Nat.not_lt.mpr hhit, hd,
      Nat.pos_iff_ne_zero.mp hv, insertVI, forcedInfo]
  · intro hv hd
    simp [Voting.force_vote, h, hact, Nat.not_lt.mpr hhit, hd,
      Nat.pos_iff_ne_zero.mp hv, insertVI, forcedInfo]

/-- C8 witness: a concrete zero-vote poll makes force_vote panic, and a
concrete one-vote poll is finalized with the accumulators divided by 1. -/
theorem force_vote_zero_votes_divides_by_zero_witness :
    Voting.force_vote (vsFix pollFix) 1 200 0 true = none ∧
    Voting.force_vote (vsFix pollFix1) 1 200 0 true =
      some (Except.ok (), insertVI (vsFix pollFix1) 0 (forcedInfo pollFix1),
        [Voting.Event.FinalVotePushed 0 1]) := by
  constructor
  · exact (force_vote_zero_votes_divides_by_zero (vsFix pollFix) 1 200 0 pollFix
      rfl rfl (by decide) rfl).1 rfl
  · exact (force_vote_zero_votes_divides_by_zero (vsFix pollFix1) 1 200 0 pollFix1
      rfl rfl (by decide) rfl).2.1 (by decide) (by decide)

def rejectedInfo (x : Voting.VoteInfo) (index : Nat) : Voting.VoteInfo :=
  { x with
    available_votes := x.available_votes + 1,
    arbiters := x.arbiters.set index
      { x.arbiters.getD index ⟨0, false⟩ with has_voted := true },
    is_active := false }

/-- C9: a Reject vote by an eligible roster member on an active poll is
immediate and terminal regardless of how many votes precede it: when the
nested assess call succeeds the voter is marked as having voted, the vote
count is incremented and the active flag is set to false; when the nested
call fails the vote returns AssessmentFailed with the stored poll state
entirely unchanged. -/
theorem vote_reject_immediate_terminal
    (s : Voting.State) (caller id index : Nat) (x : Voting.VoteInfo)
    (h : s.vote_id_to_info id = some x) (hact : x.is_active = true)
    (hidx : x.arbiters.findIdx? (fun a => a.voter_address == caller) = some index)
    (hnv : (x.arbiters.getD index ⟨0, false⟩).has_voted = false) :
    Voting.vote s caller id Voting.AuditArbitrationResult.Reject true =
      some (Except.ok (), insertVI s id (rejectedInfo x index),
        [Voting.Event.ArbiterVoted id caller (some Voting.AuditArbitrationResult.Reject),
         Voting.Event.FinalVotePushed id caller]) ∧
    Voting.vote s caller id Voting.AuditArbitrationResult.Reject false =
      some (Except.error Voting.Error.AssessmentFailed, s, []) := by
  constructor
  · simp only [Voting.vote, h, hact, hidx]
    simp only [hnv]
    split <;> simp_all [insertVI, rejectedInfo]
  · simp only [Voting.vote, h, hact, hidx]
    simp only [hnv]
    split <;> simp_all

/-- C9 witness: the first arbiter of a fresh three-member poll votes
Reject; with a succeeding nested call the poll deactivates, with a failing
nested call the state is returned unchanged with AssessmentFailed. -/
theorem vote_reject_immediate_terminal_witness :
    Voting.vote (vsFix pollFix) 10 0 Voting.AuditArbitrationResult.Reject true =
      some (Except.ok (), insertVI (vsFix pollFix) 0 (rejectedInfo pollFix 0),
        [Voting.Event.ArbiterVoted 0 10 (some Voting.AuditArbitrationResult.Reject),
         Voting.Event.FinalVotePushed 0 10]) ∧
    Voting.vote (vsFix pollFix) 10 0 Voting.AuditArbitrationResult.Reject false =
      some (Except.error Voting.Error.AssessmentFailed, vsFix pollFix, []) := by
  exact vote_reject_immediate_terminal (vsFix pollFix) 10 0 0 pollFix rfl rfl rfl rfl
